import Mathlib

/-!
Verification development for the chess-net repository: a shallow embedding of
the event bus (`chessnet/events.py`), the game orchestration loop
(`chessnet/game.py`), the Fargate engine lifecycle (`chessnet/fargate.py`) and
the storage layers (`chessnet/storage.py`, `chessnet/sql.py`), together with
theorems settling the specification's claims against the code.
-/

set_option autoImplicit false

/-! ## Event model (`chessnet/events.py`) -/

/-- `EventType` enum from `events.py`. -/
inductive EventType where
  | START_GAME
  | MAKE_MOVE
  | END_GAME
deriving DecidableEq

/-- `Move` dataclass from `storage.py`: fields `san` and `time_ms`. -/
structure Move where
  san : String
  time_ms : Nat
deriving DecidableEq

/-- `Game` record as used by `sql.py` and `server.py` (`game_id`, `timestamp`,
`white`, `black`, nullable `outcome`). -/
structure Game where
  game_id : String
  timestamp : Nat
  white : String
  black : String
  outcome : Option String
deriving DecidableEq

/-- The `Event` tagged union from `events.py`: `StartGameEvent`,
`EndGameEvent`, `MakeMoveEvent`, each carrying its `typ` discriminant
implicitly (here: by constructor). -/
inductive Event where
  | startGame (game : Game)
  | endGame (game_id : String) (outcome : String)
  | makeMove (game_id : String) (move : Move) (fen_before : String) (engine_id : String)
deriving DecidableEq

/-- The `typ` discriminant field of each event dataclass. -/
def Event.typ : Event → EventType
  | .startGame _ => .START_GAME
  | .endGame _ _ => .END_GAME
  | .makeMove _ _ _ _ => .MAKE_MOVE

/-- `Subscription.__init__`: stores the channel and the set of accepted event
types. The callback function itself is abstracted away; invoking a
subscription's callback is observed as that subscription appearing in the
invoked list of a publish. -/
structure Subscription where
  channel : String
  typs : List EventType
deriving DecidableEq

/-- `Subscription.accept`: the callback is awaited iff `event.typ in self.typs`. -/
def Subscription.accept (s : Subscription) (e : Event) : Bool :=
  s.typs.contains e.typ

/-- Handles are generated by `uuid.uuid4()`; modelled as a fresh counter value
(collision-free, like uuid4 in practice). -/
abbrev Handle := Nat

/-- `Broker.__init__`: `self.subscriptions` is a dict from channel to a dict
from handle to `Subscription` (insertion-ordered, unique keys), modelled as
nested association lists; `nextHandle` models the fresh-uuid generator. -/
structure Broker where
  subscriptions : List (String × List (Handle × Subscription))
  nextHandle : Handle

/-- Python `dict.get`: first (unique) entry with the given key. -/
def alistGet {α : Type} (l : List (String × α)) (k : String) : Option α :=
  (l.find? (fun p => p.1 == k)).map (fun p => p.2)

/-- The fresh `Broker()` with an empty registry. -/
def Broker.empty : Broker := { subscriptions := [], nextHandle := 0 }

/-- The subscription dict registered on channel `c` (`self.subscriptions.get(c, {})`). -/
def Broker.channelSubs (B : Broker) (c : String) : List (Handle × Subscription) :=
  (alistGet B.subscriptions c).getD []

/-- `Broker.publish(channel, event)` creates one `asyncio` task per
subscription on the exact channel followed by one per subscription on the
wildcard channel; this is the list of subscriptions handed a task. -/
def Broker.publishTasks (B : Broker) (channel : String) (e : Event) :
    List (Handle × Subscription) :=
  B.channelSubs channel ++ B.channelSubs "*"

/-- The subscriptions whose callback is actually invoked by
`Broker.publish(channel, event)`: each spawned task runs
`Subscription.accept`, which calls the callback iff the event's type is in
the subscription's accepted set. -/
def Broker.invoked (B : Broker) (channel : String) (e : Event) :
    List (Handle × Subscription) :=
  (B.publishTasks channel e).filter (fun p => p.2.accept e)

/-- `Broker.subscribe(channel, typs, callback)`: ensures the channel key
exists (appending a fresh empty dict if not), then stores the new
subscription under a fresh handle; returns the handle. -/
def Broker.subscribe (B : Broker) (channel : String) (typs : List EventType) :
    Broker × Handle :=
  let handle := B.nextHandle
  let sub : Subscription := { channel := channel, typs := typs }
  let subs :=
    match alistGet B.subscriptions channel with
    | none => B.subscriptions ++ [(channel, [(handle, sub)])]
    | some _ =>
        B.subscriptions.map (fun p =>
          if p.1 == channel then (p.1, p.2 ++ [(handle, sub)]) else p)
  ({ subscriptions := subs, nextHandle := handle + 1 }, handle)

/-- `Broker.unsubscribe(handle)`: for every channel, deletes the handle's
entry if present, then deletes the channel key if its dict became empty. -/
def Broker.unsubscribe (B : Broker) (handle : Handle) : Broker :=
  { B with
    subscriptions :=
      (B.subscriptions.map (fun p => (p.1, p.2.filter (fun q => q.1 != handle)))).filter
        (fun p => !p.2.isEmpty) }

/-- Operations driving the broker registry, for stating state invariants. -/
inductive BrokerOp where
  | sub (channel : String) (typs : List EventType)
  | unsub (handle : Handle)

/-- Apply one registry operation. -/
def Broker.applyOp (B : Broker) : BrokerOp → Broker
  | .sub c t => (B.subscribe c t).1
  | .unsub h => B.unsubscribe h

/-- Apply a sequence of registry operations from left to right. -/
def Broker.applyOps (ops : List BrokerOp) (B : Broker) : Broker :=
  ops.foldl Broker.applyOp B

/-! ### Broker lemmas -/

theorem brokerSubscribe_preserves_nonempty (B : Broker) (c : String)
    (t : List EventType)
    (h : ∀ p ∈ B.subscriptions, p.2 ≠ []) :
    ∀ p ∈ ((B.subscribe c t).1).subscriptions, p.2 ≠ [] := by
  intro p hp
  simp only [Broker.subscribe] at hp
  cases hymatch : alistGet B.subscriptions c with
  | none =>
      rw [hymatch] at hp
      simp only [List.mem_append, List.mem_singleton] at hp
      rcases hp with hp | hp
      · exact h p hp
      · subst hp; simp
  | some s =>
      rw [hymatch] at hp
      simp only [List.mem_map] at hp
      obtain ⟨q, hq, hpq⟩ := hp
      by_cases hc : q.1 == c
      · simp only [hc, if_pos] at hpq
        subst hpq; simp
      · simp only [hc] at hpq
        rw [if_neg (by simp_all)] at hpq
        subst hpq; exact h q hq

theorem brokerUnsubscribe_preserves_nonempty (B : Broker) (hdl : Handle) :
    ∀ p ∈ (B.unsubscribe hdl).subscriptions, p.2 ≠ [] := by
  intro p hp
  simp only [Broker.unsubscribe] at hp
  rw [List.mem_filter] at hp
  have h2 := hp.2
  simp only [Bool.not_eq_true'] at h2
  intro hemp
  rw [hemp] at h2
  simp at h2

theorem brokerApplyOps_preserves_nonempty_aux (ops : List BrokerOp) :
    ∀ (B : Broker), (∀ p ∈ B.subscriptions, p.2 ≠ []) →
      ∀ p ∈ (Broker.applyOps ops B).subscriptions, p.2 ≠ [] := by
  induction ops with
  | nil => intro B hB; exact hB
  | cons op rest ih =>
      intro B hB
      have hstep : ∀ p ∈ (B.applyOp op).subscriptions, p.2 ≠ [] := by
        cases op with
        | sub c t => exact brokerSubscribe_preserves_nonempty B c t hB
        | unsub h => exact brokerUnsubscribe_preserves_nonempty B h
      exact ih (B.applyOp op) hstep

/-- C4: `Broker.publish(C, E)` invokes the callback of exactly those
subscriptions that are registered on channel `C` or on the wildcard channel
`"*"` and whose accepted kind-set contains `E`'s kind; subscriptions on other
channels, and subscriptions whose kind-set excludes `E`'s kind, are not
invoked. -/
theorem publish_invokes_exactly_matching (B : Broker) (C : String) (e : Event)
    (p : Handle × Subscription) :
    p ∈ B.invoked C e ↔
      (p ∈ B.channelSubs C ∨ p ∈ B.channelSubs "*") ∧ p.2.accept e = true := by
  simp only [Broker.invoked, Broker.publishTasks, List.mem_filter, List.mem_append]

/-- C4 witness: in a broker with a subscription on channel `"g1"` accepting
`MAKE_MOVE`, publishing a `MakeMove` event on `"g1"` invokes that
subscription. -/
theorem publish_invokes_exactly_matching_witness :
    ((0 : Handle), Subscription.mk "g1" [EventType.MAKE_MOVE]) ∈
      (Broker.mk [("g1", [(0, Subscription.mk "g1" [EventType.MAKE_MOVE])])] 1).invoked
        "g1" (Event.makeMove "g1" (Move.mk "e2e4" 0) "fen" "w") :=
  (publish_invokes_exactly_matching _ "g1" _ _).mpr (by decide)

/-- C10: starting from the empty registry, after any sequence of `subscribe`
and `unsubscribe` calls, every channel key present in `Broker.subscriptions`
maps to a non-empty subscription dict: `unsubscribe` prunes emptied channel
entries and `subscribe` only creates a channel entry together with a
subscription in it. -/
theorem broker_channel_entries_nonempty (ops : List BrokerOp) (c : String)
    (l : List (Handle × Subscription))
    (h : (c, l) ∈ (Broker.applyOps ops Broker.empty).subscriptions) : l ≠ [] := by
  have hempty : ∀ p ∈ Broker.empty.subscriptions, p.2 ≠ [] := by
    intro p hp; simp [Broker.empty] at hp
  exact brokerApplyOps_preserves_nonempty_aux ops Broker.empty hempty (c, l) h

/-- C10 witness: after `subscribe("games", {MAKE_MOVE})` on an empty broker,
the single channel entry holds a non-empty subscription dict. -/
theorem broker_channel_entries_nonempty_witness :
    ("games", [((0 : Handle), Subscription.mk "games" [EventType.MAKE_MOVE])]) ∈
      (Broker.applyOps [BrokerOp.sub "games" [EventType.MAKE_MOVE]] Broker.empty).subscriptions
    ∧ [((0 : Handle), Subscription.mk "games" [EventType.MAKE_MOVE])] ≠
        ([] : List (Handle × Subscription)) :=
  ⟨by decide, broker_channel_entries_nonempty [BrokerOp.sub "games" [EventType.MAKE_MOVE]]
      "games" [((0 : Handle), Subscription.mk "games" [EventType.MAKE_MOVE])] (by decide)⟩

/-! ## Remote engine lifecycle (`chessnet/fargate.py`) -/

/-- `RunningEngine` dataclass from `fargate.py`. -/
structure RunningEngine where
  task_arn : String
  ip_addr : String
  port : Nat
deriving DecidableEq

/-- One `describe_tasks` poll observation used by
`FargateEngineManager._wait_for_ready`: the task's `lastStatus` and
`stoppedReason`, the first attachment's `status`, its
`networkInterfaceId` detail (absent when no detail with that name exists),
and the public IP the follow-up `describe_network_interfaces` call would
resolve for that interface. -/
structure TaskDesc where
  lastStatus : String
  stoppedReason : String
  eniStatus : String
  eniId : Option String
  publicIp : String

/-- The errors `_wait_for_ready` can raise. -/
inductive WaitError where
  | stoppedWhileWaiting (reason : String)
  | missingEniId
  | timedOut
deriving DecidableEq

/-- The fixed back-off schedule `sleeps = [0, 5, 5, 10, 10, 30, 30, 60, 60]`. -/
def waitSleeps : List Nat := [0, 5, 5, 10, 10, 30, 30, 60, 60]

/-- The loop body of `_wait_for_ready`, iterating over the remaining sleep
schedule; `resp i` is the task description observed by the `i`-th
`describe_tasks` call. Returns the result together with the list of sleeps
actually performed. Mirrors the source exactly, including the `elif status ==
"STOPPED"` branch that is only reachable when the status already compared
equal to `"RUNNING"`. -/
def waitForReadyAux (task_arn : String) (resp : Nat → TaskDesc) :
    Nat → List Nat → Except WaitError RunningEngine × List Nat
  | _, [] => (.error .timedOut, [])
  | i, s :: rest =>
    let t := resp i
    if t.lastStatus ≠ "RUNNING" then
      ((waitForReadyAux task_arn resp (i + 1) rest).1,
        s :: (waitForReadyAux task_arn resp (i + 1) rest).2)
    else if t.lastStatus = "STOPPED" then
      (.error (.stoppedWhileWaiting t.stoppedReason), [s])
    else if t.eniStatus ≠ "ATTACHED" then
      ((waitForReadyAux task_arn resp (i + 1) rest).1,
        s :: (waitForReadyAux task_arn resp (i + 1) rest).2)
    else
      match t.eniId with
      | none => (.error .missingEniId, [s])
      | some _ => (.ok ⟨task_arn, t.publicIp, 3333⟩, [s])

/-- `FargateEngineManager._wait_for_ready(task_arn)` over the observation
stream `resp`. -/
def waitForReady (task_arn : String) (resp : Nat → TaskDesc) :
    Except WaitError RunningEngine × List Nat :=
  waitForReadyAux task_arn resp 0 waitSleeps

/-- A task that has already stopped, with a remote-reported stop reason. -/
def stoppedTask : TaskDesc :=
  { lastStatus := "STOPPED", stoppedReason := "OutOfMemoryError: container killed"
  , eniStatus := "", eniId := none, publicIp := "" }

/-- C5: evaluating `_wait_for_ready` on a task that reports `STOPPED` at every
poll: because `status != "RUNNING"` already triggers `continue`, the `elif
status == "STOPPED"` fail-fast branch is unreachable; the poll consumes the
entire back-off schedule and raises the generic timeout error, never
surfacing the remote stop reason. -/
theorem wait_for_ready_ignores_stopped_status :
    waitForReady "arn-1" (fun _ => stoppedTask) = (.error .timedOut, waitSleeps) := by
  rfl

/-- A task that reports `RUNNING` with an `ATTACHED` network attachment whose
details contain no `networkInterfaceId` entry. -/
def attachedNoEniTask : TaskDesc :=
  { lastStatus := "RUNNING", stoppedReason := ""
  , eniStatus := "ATTACHED", eniId := none, publicIp := "" }

/-- C6 counterexample: on a task whose attachment carries no network
interface id, the poll fails on the very first iteration with the
missing-interface error — it neither returns a `RunningEngine` nor exhausts
the schedule with a timeout error, refuting the claimed dichotomy. -/
theorem wait_for_ready_dichotomy_counterexample :
    (waitForReady "arn-1" (fun _ => attachedNoEniTask)).1 = .error .missingEniId
    ∧ (waitForReady "arn-1" (fun _ => attachedNoEniTask)).1.isOk = false
    ∧ (waitForReady "arn-1" (fun _ => attachedNoEniTask)).1 ≠ .error .timedOut
    ∧ (waitForReady "arn-1" (fun _ => attachedNoEniTask)).2 ≠ waitSleeps := by
  have h : waitForReady "arn-1" (fun _ => attachedNoEniTask) =
      (.error .missingEniId, [0]) := rfl
  refine ⟨by rw [h], by rw [h]; rfl, ?_, ?_⟩
  · rw [h]
    intro hc
    exact absurd (Except.error.inj hc) (by decide)
  · rw [h]
    decide

theorem waitForReadyAux_bounded (arn : String) (resp : Nat → TaskDesc) :
    ∀ (l : List Nat) (i : Nat),
      ∃ n, (waitForReadyAux arn resp i l).2 = l.take n ∧
        ((∃ e, (waitForReadyAux arn resp i l).1 = .ok e) ∨
         (waitForReadyAux arn resp i l).1 = .error .missingEniId ∨
         ((waitForReadyAux arn resp i l).1 = .error .timedOut ∧
           (waitForReadyAux arn resp i l).2 = l)) := by
  intro l
  induction l with
  | nil =>
      intro i
      exact ⟨0, rfl, Or.inr (Or.inr ⟨rfl, rfl⟩)⟩
  | cons s rest ih =>
      intro i
      by_cases h1 : (resp i).lastStatus ≠ "RUNNING"
      · obtain ⟨n, hn, hres⟩ := ih (i + 1)
        refine ⟨n + 1, ?_, ?_⟩
        · simp only [waitForReadyAux, if_pos h1, List.take_succ_cons, hn]
        · simp only [waitForReadyAux, if_pos h1]
          rcases hres with ⟨e, he⟩ | he | ⟨he, hl⟩
          · exact Or.inl ⟨e, he⟩
          · exact Or.inr (Or.inl he)
          · exact Or.inr (Or.inr ⟨he, by rw [hl]⟩)
      · by_cases h2 : (resp i).lastStatus = "STOPPED"
        · exact absurd (h2 ▸ not_not.mp h1) (by decide)
        · by_cases h3 : (resp i).eniStatus ≠ "ATTACHED"
          · obtain ⟨n, hn, hres⟩ := ih (i + 1)
            refine ⟨n + 1, ?_, ?_⟩
            · simp only [waitForReadyAux, if_neg h1, if_neg h2, if_pos h3,
                List.take_succ_cons, hn]
            · simp only [waitForReadyAux, if_neg h1, if_neg h2, if_pos h3]
              rcases hres with ⟨e, he⟩ | he | ⟨he, hl⟩
              · exact Or.inl ⟨e, he⟩
              · exact Or.inr (Or.inl he)
              · exact Or.inr (Or.inr ⟨he, by rw [hl]⟩)
          · cases heni : (resp i).eniId with
            | none =>
                refine ⟨1, ?_, Or.inr (Or.inl ?_)⟩
                · simp only [waitForReadyAux, if_neg h1, if_neg h2, if_neg h3, heni,
                    List.take_succ_cons, List.take_zero]
                · simp only [waitForReadyAux, if_neg h1, if_neg h2, if_neg h3, heni]
            | some x =>
                refine ⟨1, ?_, Or.inl ⟨⟨arn, (resp i).publicIp, 3333⟩, ?_⟩⟩
                · simp only [waitForReadyAux, if_neg h1, if_neg h2, if_neg h3, heni,
                    List.take_succ_cons, List.take_zero]
                · simp only [waitForReadyAux, if_neg h1, if_neg h2, if_neg h3, heni]

/-- C6 (amended): the provisioning poll performs at most the fixed back-off
schedule of waits (its performed sleeps are always a schedule prefix); for
every observation stream it terminates, either returning a `RunningEngine`,
failing immediately with the missing-network-interface error, or — once the
whole schedule has been consumed — failing with the timeout error; it never
waits beyond the schedule. -/
theorem wait_for_ready_bounded_schedule (arn : String) (resp : Nat → TaskDesc) :
    ∃ n, (waitForReady arn resp).2 = waitSleeps.take n ∧
      ((∃ e, (waitForReady arn resp).1 = .ok e) ∨
       (waitForReady arn resp).1 = .error .missingEniId ∨
       ((waitForReady arn resp).1 = .error .timedOut ∧
         (waitForReady arn resp).2 = waitSleeps)) :=
  waitForReadyAux_bounded arn resp waitSleeps 0

/-- A `stop_task` request issued to the ECS client by
`FargateEngineManager.stop_engine`. -/
structure StopCall where
  task : String
  reason : String
deriving DecidableEq

/-- `FargateEngineManager.stop_engine(running_engine, reason)`: issues
`stop_task` for `running_engine.task_arn` with the reason string. If
`running_engine` is `None`, the attribute access `running_engine.task_arn`
raises before any request is made. -/
def stop_engine (re : Option RunningEngine) (reason : String) : Except String StopCall :=
  match re with
  | none => .error "AttributeError: NoneType object has no attribute task_arn"
  | some e => .ok { task := e.task_arn, reason := reason }

/-- The observable state of a `FargateRunner`: its `running_engine` handle and
the stop requests issued so far through its manager. -/
structure FargateRunnerState where
  running_engine : Option RunningEngine
  stops : List StopCall
deriving DecidableEq

/-- `FargateRunner.shutdown(reason)` is exactly
`await self.manager.stop_engine(self.running_engine, reason)`; in particular
`self.running_engine` is not reset afterwards. -/
def FargateRunner.shutdown (st : FargateRunnerState) (reason : String) :
    Except String FargateRunnerState :=
  match stop_engine st.running_engine reason with
  | .error e => .error e
  | .ok call => .ok { st with stops := st.stops ++ [call] }

/-- How `FargateEngineManager.run_engine` ends: `run_task` itself fails (no
task exists), `run_task` launches a task but `_wait_for_ready` raises
(timeout, or one of its other errors), or a ready `RunningEngine` is
returned. -/
inductive ProvisionOutcome where
  | launchFail (desc : String)
  | waitFail (task_arn : String) (desc : String)
  | ready (re : RunningEngine)

/-- How the connection/handshake phase of `FargateRunner.run` behaves once a
`RunningEngine` exists: `create_connection` raises, `protocol.initialize()`
raises, or both succeed. -/
inductive ConnectInit where
  | connectFail (desc : String)
  | initFail (desc : String)
  | ok

/-- The observable outcome of one `FargateRunner.run()` call: the final
`running_engine` reference on the Runner, whether a remote task was actually
launched, the stop requests issued, and the exception (if any) propagating
out of `run()`. -/
structure RunOutput where
  running_engine : Option RunningEngine
  launched : Bool
  stops : List StopCall
  raised : Option String
deriving DecidableEq

/-- `FargateRunner.run()`: `self.running_engine = await
self.manager.run_engine(self._engine)` executes before the `try` block, so
only the connection and initialization steps are covered by the
`except: await self.shutdown(...); raise` cleanup; an exception raised by
`run_engine` itself propagates with no stop request issued. -/
def FargateRunner.run (prov : ProvisionOutcome) (ci : ConnectInit) : RunOutput :=
  match prov with
  | .launchFail d =>
      { running_engine := none, launched := false, stops := [], raised := some d }
  | .waitFail _ d =>
      { running_engine := none, launched := true, stops := [], raised := some d }
  | .ready re =>
      match ci with
      | .connectFail d =>
          { running_engine := some re, launched := true
          , stops := [{ task := re.task_arn, reason := "Error during initialization: " ++ d }]
          , raised := some d }
      | .initFail d =>
          { running_engine := some re, launched := true
          , stops := [{ task := re.task_arn, reason := "Error during initialization: " ++ d }]
          , raised := some d }
      | .ok =>
          { running_engine := some re, launched := true, stops := [], raised := none }

/-- C1: evaluating `FargateRunner.run()` on the scenario where `run_task`
launched a task but `_wait_for_ready` then raised its timeout: the exception
propagates out of `run()` with no stop request ever issued (`stops = []`),
even though a task was launched — `terminate` is attempted zero times, not
exactly once, so the launched instance keeps running unreferenced. -/
theorem run_skips_shutdown_on_provisioning_failure :
    FargateRunner.run (.waitFail "arn-1" "Task took too long to start") .ok =
      { running_engine := none, launched := true, stops := []
      , raised := some "Task took too long to start" } := rfl

/-- A runner that has provisioned an instance and holds its handle. -/
def runnerAfterRun : FargateRunnerState :=
  { running_engine := some { task_arn := "arn-1", ip_addr := "10.0.0.1", port := 3333 }
  , stops := [] }

/-- C8 counterexample: after the first `shutdown("stop")` the Runner's handle
is still set (not reset to null), and a second `shutdown` issues a second
`stop_engine` request instead of being a no-op. -/
theorem shutdown_not_idempotent_counterexample :
    FargateRunner.shutdown runnerAfterRun "stop" =
      .ok { running_engine := some { task_arn := "arn-1", ip_addr := "10.0.0.1", port := 3333 }
          , stops := [{ task := "arn-1", reason := "stop" }] }
    ∧ ({ running_engine := some { task_arn := "arn-1", ip_addr := "10.0.0.1", port := 3333 }
       , stops := [{ task := "arn-1", reason := "stop" }] } :
          FargateRunnerState).running_engine ≠ none
    ∧ FargateRunner.shutdown
        { running_engine := some { task_arn := "arn-1", ip_addr := "10.0.0.1", port := 3333 }
        , stops := [{ task := "arn-1", reason := "stop" }] } "stop" =
      .ok { running_engine := some { task_arn := "arn-1", ip_addr := "10.0.0.1", port := 3333 }
          , stops := [{ task := "arn-1", reason := "stop" }, { task := "arn-1", reason := "stop" }] } :=
  ⟨rfl, fun h => Option.noConfusion h, rfl⟩

/-- C8 (amended): `FargateRunner.shutdown(reason)` forwards the current
handle and reason to the Manager's `stop_engine` on every call and leaves the
handle untouched: with a live handle each call appends one more stop request
for the same task (so a repeat call re-issues the stop request rather than
being a local no-op), and with no handle `stop_engine` fails on the missing
handle. -/
theorem shutdown_forwards_and_keeps_handle (st : FargateRunnerState) (reason : String) :
    (∀ e, st.running_engine = some e →
      FargateRunner.shutdown st reason =
        .ok { running_engine := some e
            , stops := st.stops ++ [{ task := e.task_arn, reason := reason }] })
    ∧ (st.running_engine = none →
        FargateRunner.shutdown st reason =
          .error "AttributeError: NoneType object has no attribute task_arn") := by
  obtain ⟨re, stops⟩ := st
  constructor
  · intro e he
    have hre : re = some e := he
    subst hre
    rfl
  · intro he
    have hre : re = none := he
    subst hre
    rfl

/-- C8 amended-claim witness: on a runner holding a live handle, `shutdown`
issues the stop request and keeps the handle. -/
theorem shutdown_forwards_and_keeps_handle_witness :
    runnerAfterRun.running_engine =
      some { task_arn := "arn-1", ip_addr := "10.0.0.1", port := 3333 }
    ∧ FargateRunner.shutdown runnerAfterRun "stop" =
        .ok { running_engine := some { task_arn := "arn-1", ip_addr := "10.0.0.1", port := 3333 }
            , stops := [{ task := "arn-1", reason := "stop" }] } :=
  ⟨rfl, by
    have h := (shutdown_forwards_and_keeps_handle runnerAfterRun "stop").1
      { task_arn := "arn-1", ip_addr := "10.0.0.1", port := 3333 } rfl
    simpa [runnerAfterRun] using h⟩

/-! ## Game orchestration (`chessnet/game.py`) -/

/-- The payload of a `MakeMoveEvent` as published by `play_game`:
`Events.make_move(game_id, Move(res.move.uci(), 0), board.fen(), engine_id)`. -/
structure MakeMoveEv where
  game_id : String
  uci : String
  fen_before : String
  engine_id : String
deriving DecidableEq

/-- One `play(board, limit)` call as observed by the loop: either it raises an
exception with description `type(e).__name__: e`, or it returns a
`PlayResult` whose `move` may be `None`. -/
inductive PlayStep where
  | raiseExc (desc : String)
  | ret (mv : Option String)

/-- One engine runner as `play_game` sees it: its engine id
(`runner.engine().id()`) and the outcome of its `play` call on each loop
iteration. -/
structure RunnerModel where
  engineId : String
  play : Nat → PlayStep

/-- The board/rules abstraction (the external `chess` library): `push`,
`fen` and `outcome` over an abstract board type. -/
structure BoardModel (β : Type) where
  push : β → String → β
  fen : β → String
  outcome : β → Option String

/-- `if res.move is not None: board.push(res.move)`. -/
def applyMove {β : Type} (m : BoardModel β) (b : β) : Option String → β
  | some u => m.push b u
  | none => b

/-- `if res.move is not None: broker.publish(game_id, Events.make_move(...))`
with the pre-move FEN and the given engine id. -/
def publishIf {β : Type} (m : BoardModel β) (gid : String) (eid : String) (b : β)
    (evs : List MakeMoveEv) : Option String → List MakeMoveEv
  | some u => evs ++ [{ game_id := gid, uci := u, fen_before := m.fen b, engine_id := eid }]
  | none => evs

/-- How the `while True` loop of `play_game` exits: a terminal outcome was
found (`break`), a `play` call raised, or the modelling fuel ran out. -/
inductive LoopResult (β : Type) where
  | finished (b : β) (evs : List MakeMoveEv)
  | raised (desc : String) (b : β) (evs : List MakeMoveEv)
  | fuelOut (b : β) (evs : List MakeMoveEv)

/-- The `while True` turn loop of `play_game`, with fuel bounding the number
of iterations. Each iteration requests white's move, publishes/pushes it if
present, checks for a terminal outcome, then does the same for black. Both
`MakeMove` events are published with `white.engine().id()` — for black's move
too, exactly as `game.py` line 54 does. -/
def gameLoop {β : Type} (m : BoardModel β) (gid : String) (white black : RunnerModel) :
    Nat → Nat → β → List MakeMoveEv → LoopResult β
  | 0, _, b, evs => .fuelOut b evs
  | fuel + 1, turn, b, evs =>
    match white.play turn with
    | .raiseExc d => .raised d b evs
    | .ret mvw =>
      match m.outcome (applyMove m b mvw) with
      | some _ =>
          .finished (applyMove m b mvw) (publishIf m gid white.engineId b evs mvw)
      | none =>
        match black.play turn with
        | .raiseExc d =>
            .raised d (applyMove m b mvw) (publishIf m gid white.engineId b evs mvw)
        | .ret mvb =>
          match m.outcome (applyMove m (applyMove m b mvw) mvb) with
          | some _ =>
              .finished (applyMove m (applyMove m b mvw) mvb)
                (publishIf m gid white.engineId (applyMove m b mvw)
                  (publishIf m gid white.engineId b evs mvw) mvb)
          | none =>
              gameLoop m gid white black fuel (turn + 1)
                (applyMove m (applyMove m b mvw) mvb)
                (publishIf m gid white.engineId (applyMove m b mvw)
                  (publishIf m gid white.engineId b evs mvw) mvb)

/-- Everything observable about one `play_game` call: the final board, the
published `MakeMove` events, the `shutdown` reasons delivered to each runner,
the description of the exception caught by the `except` clause (`play_game`
swallows it and still returns `board.outcome()`), and the returned outcome. -/
structure GameOutput (β : Type) where
  board : β
  events : List MakeMoveEv
  shutdownWhite : Option String
  shutdownBlack : Option String
  errored : Option String
  fuelExhausted : Bool
  result : Option String

/-- `play_game(broker, game_id, white, black)` after both runners started:
runs the turn loop; on normal exit shuts both runners down with
`"Game finished successfully"`, on an exception with
`"Game aborted due to error: " ++ d`; either way returns `board.outcome()`. -/
def playGame {β : Type} (m : BoardModel β) (gid : String) (white black : RunnerModel)
    (fuel : Nat) (b0 : β) : GameOutput β :=
  match gameLoop m gid white black fuel 0 b0 [] with
  | .finished b evs =>
      { board := b, events := evs
      , shutdownWhite := some "Game finished successfully"
      , shutdownBlack := some "Game finished successfully"
      , errored := none, fuelExhausted := false, result := m.outcome b }
  | .raised d b evs =>
      { board := b, events := evs
      , shutdownWhite := some ("Game aborted due to error: " ++ d)
      , shutdownBlack := some ("Game aborted due to error: " ++ d)
      , errored := some d, fuelExhausted := false, result := m.outcome b }
  | .fuelOut b evs =>
      { board := b, events := evs, shutdownWhite := none, shutdownBlack := none
      , errored := none, fuelExhausted := true, result := m.outcome b }

/-- `server.py`'s `_play` after `play_game` returns: raises
`"No outcome from game"` when the returned outcome is absent (publishing no
`EndGame` event), otherwise publishes `EndGame` with the outcome string. -/
def serverAfterGame {β : Type} (out : GameOutput β) : Except String String :=
  match out.result with
  | none => .error "No outcome from game"
  | some r => .ok r

theorem gameLoop_raised_outcome_none {β : Type} (m : BoardModel β) (gid : String)
    (white black : RunnerModel) :
    ∀ (fuel turn : Nat) (b : β) (evs : List MakeMoveEv) (d : String) (b2 : β)
      (evs2 : List MakeMoveEv),
      m.outcome b = none →
      gameLoop m gid white black fuel turn b evs = .raised d b2 evs2 →
      m.outcome b2 = none := by
  intro fuel
  induction fuel with
  | zero =>
      intro turn b evs d b2 evs2 h0 hloop
      simp only [gameLoop] at hloop
      exact absurd hloop (by intro hc; cases hc)
  | succ n ih =>
      intro turn b evs d b2 evs2 h0 hloop
      simp only [gameLoop] at hloop
      cases hw : white.play turn with
      | raiseExc dw =>
          rw [hw] at hloop
          simp only [] at hloop
          injection hloop with hd hb hev
          rw [← hb]
          exact h0
      | ret mvw =>
          rw [hw] at hloop
          simp only [] at hloop
          cases how : m.outcome (applyMove m b mvw) with
          | some x =>
              rw [how] at hloop
              exact absurd hloop (by intro hc; cases hc)
          | none =>
              rw [how] at hloop
              cases hb : black.play turn with
              | raiseExc db =>
                  rw [hb] at hloop
                  simp only [] at hloop
                  injection hloop with hd hb2 hev
                  rw [← hb2]
                  exact how
              | ret mvb =>
                  rw [hb] at hloop
                  simp only [] at hloop
                  cases hob : m.outcome (applyMove m (applyMove m b mvw) mvb) with
                  | some x =>
                      rw [hob] at hloop
                      exact absurd hloop (by intro hc; cases hc)
                  | none =>
                      rw [hob] at hloop
                      exact ih (turn + 1) _ _ d b2 evs2 hob hloop

/-- C3: whenever a `play` call raises inside the turn loop (starting from a
non-terminal board), the loop aborts, both runners receive a `shutdown` call
whose reason is `"Game aborted due to error: "` followed by the exception's
description, the returned outcome is `none` (never a fabricated result), and
the caller reports the game as failed (`"No outcome from game"`) rather than
recording an `EndGame`. -/
theorem play_exception_aborts_and_shuts_down {β : Type} (m : BoardModel β)
    (gid : String) (white black : RunnerModel) (fuel : Nat) (b0 : β) (d : String)
    (h0 : m.outcome b0 = none)
    (herr : (playGame m gid white black fuel b0).errored = some d) :
    (playGame m gid white black fuel b0).shutdownWhite =
        some ("Game aborted due to error: " ++ d)
    ∧ (playGame m gid white black fuel b0).shutdownBlack =
        some ("Game aborted due to error: " ++ d)
    ∧ (playGame m gid white black fuel b0).result = none
    ∧ serverAfterGame (playGame m gid white black fuel b0) =
        .error "No outcome from game" := by
  unfold playGame at herr ⊢
  cases hloop : gameLoop m gid white black fuel 0 b0 [] with
  | finished b evs =>
      rw [hloop] at herr
      exact Option.noConfusion herr
  | raised d2 b evs =>
      rw [hloop] at herr
      have hd : d2 = d := Option.some.inj herr
      subst hd
      have hres : m.outcome b = none :=
        gameLoop_raised_outcome_none m gid white black fuel 0 b0 [] d2 b evs h0 hloop
      refine ⟨rfl, rfl, hres, ?_⟩
      show (match m.outcome b with
        | none => Except.error "No outcome from game"
        | some r => Except.ok r) = Except.error "No outcome from game"
      rw [hres]
  | fuelOut b evs =>
      rw [hloop] at herr
      exact Option.noConfusion herr

/-- A concrete board model for witnesses: the board is the list of moves
played so far; the FEN is the move count; the game is over after two moves. -/
def uciBoard : BoardModel (List String) :=
  { push := fun l u => l ++ [u]
  , fen := fun l => toString l.length
  , outcome := fun l => if 2 ≤ l.length then some "1-0" else none }

/-- A white runner whose first `play` call raises. -/
def raisingWhite : RunnerModel :=
  { engineId := "stockfish#main#11"
  , play := fun _ => .raiseExc "RuntimeError: connection reset" }

/-- A black runner that always answers `e7e5`. -/
def scriptedBlack : RunnerModel :=
  { engineId := "alphazero#main#1.0.0"
  , play := fun _ => .ret (some "e7e5") }

/-- C3 witness: with white's `play` raising on the first move, both shutdown
reasons carry the exception description, the outcome is absent and the caller
reports failure. -/
theorem play_exception_aborts_and_shuts_down_witness :
    (playGame uciBoard "g1" raisingWhite scriptedBlack 5 ([] : List String)).shutdownWhite =
        some ("Game aborted due to error: " ++ "RuntimeError: connection reset")
    ∧ (playGame uciBoard "g1" raisingWhite scriptedBlack 5 ([] : List String)).shutdownBlack =
        some ("Game aborted due to error: " ++ "RuntimeError: connection reset")
    ∧ (playGame uciBoard "g1" raisingWhite scriptedBlack 5 ([] : List String)).result = none
    ∧ serverAfterGame (playGame uciBoard "g1" raisingWhite scriptedBlack 5 ([] : List String)) =
        .error "No outcome from game" :=
  play_exception_aborts_and_shuts_down uciBoard "g1" raisingWhite scriptedBlack 5 []
    "RuntimeError: connection reset" rfl rfl

/-- A white runner that always answers `e2e4`. -/
def scriptedWhite : RunnerModel :=
  { engineId := "stockfish#main#11"
  , play := fun _ => .ret (some "e2e4") }

/-- C2: evaluating `play_game` on a game where white plays `e2e4` and black
answers `e7e5`: both published `MakeMove` events carry
`white.engine().id()` — the event for the move actually produced by the black
runner is attributed to the white engine, whose id differs from black's. -/
theorem black_move_event_attributed_to_white :
    (playGame uciBoard "g1" scriptedWhite scriptedBlack 5 ([] : List String)).events =
      [ { game_id := "g1", uci := "e2e4", fen_before := "0"
        , engine_id := "stockfish#main#11" }
      , { game_id := "g1", uci := "e7e5", fen_before := "1"
        , engine_id := "stockfish#main#11" } ]
    ∧ scriptedBlack.engineId = "alphazero#main#1.0.0"
    ∧ scriptedWhite.engineId ≠ scriptedBlack.engineId :=
  ⟨rfl, rfl, by decide⟩

/-! ## File storage (`chessnet/storage.py`) -/

/-- The `Engine` dataclass from `storage.py`. -/
structure Engine where
  family : String
  variant : String
  version : String
  image : String
deriving DecidableEq

/-- `Engine.id()`: `f"{self.family}#{self.variant}#{self.version}"`. -/
def Engine.id (e : Engine) : String :=
  e.family ++ "#" ++ e.variant ++ "#" ++ e.version

/-- The `engines` dict of `FileStorage.data`, keyed by engine id. -/
structure FileStorage where
  engines : List (String × Engine)
deriving DecidableEq

/-- A `FileStorage` over a fresh path: `{"engines": {}, "games": {}}`. -/
def FileStorage.empty : FileStorage := { engines := [] }

/-- `FileStorage.store_engine`: fails if the id is already a key, otherwise
inserts the engine under its id. -/
def FileStorage.store_engine (s : FileStorage) (e : Engine) : Except String FileStorage :=
  match alistGet s.engines e.id with
  | some _ => .error ("Engine already exists with id: " ++ e.id)
  | none => .ok { engines := s.engines ++ [(e.id, e)] }

/-- `FileStorage.get_engine`: fails if the id is absent, otherwise returns the
stored engine. -/
def FileStorage.get_engine (s : FileStorage) (engine_id : String) : Except String Engine :=
  match alistGet s.engines engine_id with
  | none => .error ("No engine with UUID: " ++ engine_id)
  | some e => .ok e

/-- `FileStorage.delete_engine` executes `del self.data.engines[uuid]`;
`self.data` is a plain dict (every other method subscripts
`self.data["engines"]`), so the attribute access `self.data.engines` raises
`AttributeError` before any entry is deleted, for every input. -/
def FileStorage.delete_engine (_s : FileStorage) (_uuid : String) :
    Except String FileStorage :=
  .error "AttributeError: dict object has no attribute engines"

/-- The stockfish engine used throughout the repository's tests. -/
def stockfishEngine : Engine :=
  { family := "stockfish", variant := "main", version := "11"
  , image := "andrijdavid/stockfish:11" }

/-- The storage holding exactly the stockfish engine,
obtained by `store_engine` on a fresh store. -/
def storageWithStockfish : FileStorage :=
  { engines := [("stockfish#main#11", stockfishEngine)] }

/-- C9: evaluating `FileStorage` at the failing input. The duplicate-store
half of the claim holds: a second `store_engine` with the same id fails and
leaves the first value in place. But `delete_engine` never removes anything —
it raises `AttributeError` on `self.data.engines` — so `get_engine` after
`delete_engine` still succeeds, contradicting the claim's second half. -/
theorem delete_engine_crashes_and_get_engine_still_succeeds :
    FileStorage.store_engine FileStorage.empty stockfishEngine = .ok storageWithStockfish
    ∧ FileStorage.store_engine storageWithStockfish stockfishEngine =
        .error "Engine already exists with id: stockfish#main#11"
    ∧ FileStorage.delete_engine storageWithStockfish "stockfish#main#11" =
        .error "AttributeError: dict object has no attribute engines"
    ∧ FileStorage.get_engine storageWithStockfish "stockfish#main#11" = .ok stockfishEngine :=
  ⟨rfl, rfl, rfl, rfl⟩

/-! ## SQL storage (`chessnet/sql.py`) -/

/-- One row of the `moves` table as actually inserted by
`SqlStorage.store_move`: the values dict built by `_store_move` contains
`san`, `timestamp`, `fen_before` and `engine_id` but no `game_id`, so the
`game_id` column is never populated (the method does not even take a game id
parameter, although its callers in `tests/test_sql.py` and `server.py` pass
one). -/
structure MoveRow where
  game_id : Option String
  san : String
  timestamp : Nat
  fen_before : String
  engine_id : String
deriving DecidableEq

/-- `SqlStorage.store_move(move, fen_before, engine_id)`: inserts the
`_store_move` values dict as a new row; `game_id` is absent from the dict. -/
def SqlStorage.store_move (tbl : List MoveRow) (san : String) (timestamp : Nat)
    (fen_before : String) (engine_id : String) : List MoveRow :=
  tbl ++ [{ game_id := none, san := san, timestamp := timestamp
          , fen_before := fen_before, engine_id := engine_id }]

/-- `SqlStorage.moves_in_game(game_id)`: selects `san` and `timestamp` from
the rows whose `game_id` column equals the argument; there is no ORDER BY. -/
def SqlStorage.moves_in_game (tbl : List MoveRow) (game_id : String) :
    List (String × Nat) :=
  (tbl.filter (fun r => r.game_id == some game_id)).map (fun r => (r.san, r.timestamp))

/-- C7: evaluating the moves store at the failing input of
`tests/test_sql.py::test_moves` (two `store_move` calls for game `"1"`):
because `store_move` records no `game_id`, `moves_in_game("1")` matches no
row and returns the empty list — its length is 0, not the 2 `storeMove`
calls made for that game. -/
theorem moves_in_game_loses_stored_moves :
    SqlStorage.moves_in_game
        (SqlStorage.store_move
          (SqlStorage.store_move [] "e2e4" 101 "<fen>" "stockfish#main#11")
          "e7e5" 102 "<fen>" "alphazero#main#1.0.0") "1" = []
    ∧ (SqlStorage.store_move
          (SqlStorage.store_move [] "e2e4" 101 "<fen>" "stockfish#main#11")
          "e7e5" 102 "<fen>" "alphazero#main#1.0.0").length = 2 :=
  ⟨rfl, rfl⟩
